import Mathlib

/-!
Verification of the OpenAlex MCP adapter (src/openalex.py).

The Python module is shallowly embedded: JSON values become an inductive
type, Python dicts become association lists (insertion-ordered, as in
CPython), Python exceptions become an error type threaded through
`Except`, the global mutable PARAMS table is passed and returned
explicitly, and the single outbound HTTP GET is modelled by an oracle
response supplied as an argument together with a trace of the requests
that were issued.
-/

/-- A JSON value, as produced by parsing an HTTP response body or passed
as a query-parameter value. Objects are insertion-ordered association
lists, matching CPython dict semantics. -/
inductive Json where
  | null
  | bool (b : Bool)
  | num (n : Int)
  | str (s : String)
  | arr (elems : List Json)
  | obj (fields : List (String × Json))

/-- A Python dict with string keys and JSON values. -/
abbrev Dict := List (String × Json)

/-- The global PARAMS table: a dict from endpoint name to parameter dict. -/
abbrev Table := List (String × Dict)

/-- Python exceptions that the embedded code can raise. -/
inductive PyErr where
  | keyError (key : String)
  | valueError (msg : String)
  | typeError
  | attributeError
  | httpStatusError (status : Nat)
  | jsonDecodeError
deriving DecidableEq

/-- Python `d[k]`-style lookup on an association list: first binding wins. -/
def lookupStr (xs : List (String × α)) (k : String) : Option α :=
  match xs with
  | [] => none
  | (k0, v) :: rest => if k0 == k then some v else lookupStr rest k

/-- Python `d[k] = v`: replace the value at an existing key in place
(keeping insertion order), otherwise append the new binding at the end. -/
def setKey (xs : List (String × α)) (k : String) (v : α) : List (String × α) :=
  match xs with
  | [] => [(k, v)]
  | (k0, v0) :: rest =>
    if k0 == k then (k0, v) :: rest else (k0, v0) :: setKey rest k v

/-- Python truthiness of a JSON value (`bool(x)`): None, False, 0, "",
[] and {} are falsy, everything else truthy. -/
def pyTruthy : Json → Bool
  | .null => false
  | .bool b => b
  | .num n => n != 0
  | .str s => s != ""
  | .arr xs => !xs.isEmpty
  | .obj fs => !fs.isEmpty

mutual

/-- Python `repr()` of a JSON value, used when rendering containers. -/
def pyRepr : Json → String
  | .null => "None"
  | .bool b => if b then "True" else "False"
  | .num n => toString n
  | .str s => "\x27" ++ s ++ "\x27"
  | .arr xs => "[" ++ String.intercalate ", " (pyReprList xs) ++ "]"
  | .obj fs => "\x7b" ++ String.intercalate ", " (pyReprFields fs) ++ "\x7d"

/-- `repr()` of each element of a list. -/
def pyReprList : List Json → List String
  | [] => []
  | x :: xs => pyRepr x :: pyReprList xs

/-- `repr()` of each key/value pair of a dict. -/
def pyReprFields : List (String × Json) → List String
  | [] => []
  | (k, v) :: fs => ("\x27" ++ k ++ "\x27: " ++ pyRepr v) :: pyReprFields fs

end

/-- Python `str()` of a JSON value, as interpolated by an f-string:
strings are rendered bare, containers through `repr()`. -/
def pyStr : Json → String
  | .str s => s
  | j => pyRepr j

/-- Python `for x in y` over a JSON value: lists yield their elements,
strings their one-character substrings, dicts their keys; other values
raise TypeError. -/
def pyIter : Json → Except PyErr (List Json)
  | .arr xs => .ok xs
  | .str s => .ok (s.data.map (fun c => Json.str (String.singleton c)))
  | .obj fs => .ok (fs.map (fun p => Json.str p.1))
  | _ => .error .typeError

/-- Python `author["name"]` as used by `format_work`: subscripting a dict
raises KeyError when the key is absent; subscripting a non-dict with a
string raises TypeError. -/
def authorName : Json → Except PyErr Json
  | .obj fs =>
    match lookupStr fs "name" with
    | some v => .ok v
    | none => .error (.keyError "name")
  | _ => .error .typeError

/-- The string check performed by `str.join`: every joined element must
already be a string, otherwise TypeError. -/
def asStr : Json → Except PyErr String
  | .str s => .ok s
  | _ => .error .typeError

/-- Apply a fallible function to each list element, stopping at the first
raised exception, as a Python loop or comprehension does. -/
def mapExcept (f : α → Except PyErr β) : List α → Except PyErr (List β)
  | [] => .ok []
  | x :: xs =>
    match f x with
    | .error e => .error e
    | .ok y =>
      match mapExcept f xs with
      | .error e => .error e
      | .ok ys => .ok (y :: ys)

/-- Embedding of `format_work` (src/openalex.py lines 115-133): a falsy
record renders as "No data found."; otherwise the fixed five-line block
is rendered, each scalar field via `data.get(key, "N/A")`, and the
authors via `", ".join([author["name"] for author in
data.get("authors", [])])`. Calling `.get` on a truthy non-dict raises
AttributeError. -/
def format_work (data : Json) : Except PyErr String :=
  if pyTruthy data = false then .ok "No data found."
  else
    match data with
    | .obj fs =>
      match pyIter ((lookupStr fs "authors").getD (Json.arr [])) with
      | .error e => .error e
      | .ok authors =>
        match mapExcept authorName authors with
        | .error e => .error e
        | .ok vals =>
          match mapExcept asStr vals with
          | .error e => .error e
          | .ok names =>
            .ok ("\n    Title: " ++ pyStr ((lookupStr fs "title").getD (Json.str "N/A"))
              ++ "\n    DOI: " ++ pyStr ((lookupStr fs "doi").getD (Json.str "N/A"))
              ++ "\n    Journal: " ++ pyStr ((lookupStr fs "journal").getD (Json.str "N/A"))
              ++ "\n    Authors: " ++ String.intercalate ", " names
              ++ "\n    Publication Date: "
              ++ pyStr ((lookupStr fs "publication_date").getD (Json.str "N/A"))
              ++ "\n    ")
    | _ => .error .attributeError

/-- Embedding of `format_works_response` (src/openalex.py lines 135-155):
`works = data.get("results", [])`; each work is rendered by
`format_work` (the loop runs before the emptiness test, so its
exceptions propagate first); an empty/falsy `works` yields
"No works found."; otherwise the blocks are joined with a separator and
the count line is appended. -/
def format_works_response (data : Json) : Except PyErr String :=
  match data with
  | .obj fs =>
    let worksVal := (lookupStr fs "results").getD (Json.arr [])
    match pyIter worksVal with
    | .error e => .error e
    | .ok works =>
      match mapExcept format_work works with
      | .error e => .error e
      | .ok formatted =>
        let found := "Number of works found: " ++ toString works.length
        if pyTruthy worksVal = false then .ok "No works found."
        else .ok (String.intercalate "\n---\n" formatted ++ "\n" ++ found)
  | _ => .error .attributeError

/-- Base origin of the OpenAlex API (src/openalex.py line 9). -/
def OA_API_BASE : String := "https://api.openalex.org"

/-- Static client identifier header value (src/openalex.py line 12). -/
def USER_AGENT : String := "openalex-search-app/1.0"

/-- Static contact-address header value (src/openalex.py line 13). -/
def MAILTO_ADDRESS : String := "openalextest@gmail.com"

/-- The ENDPOINTS table (src/openalex.py lines 16-23): resource name to
URL path segment. -/
def ENDPOINTS : List (String × String) :=
  [("works", "/works"), ("authors", "/authors"), ("venues", "/venues"),
   ("institutions", "/institutions"), ("concepts", "/concepts"), ("ids", "/ids")]

/-- The static PARAMS table (src/openalex.py lines 25-39): default query
parameters; only "works" and "authors" are populated. -/
def PARAMS : Table :=
  [("works",
    [("filter", Json.arr [Json.str "doi", Json.str "title", Json.str "abstract"]),
     ("sort", Json.arr [Json.str "relevance", Json.str "date"]),
     ("page", Json.num 1),
     ("per_page", Json.num 10)]),
   ("authors",
    [("filter", Json.arr [Json.str "orcid", Json.str "name"]),
     ("sort", Json.arr [Json.str "relevance", Json.str "date"]),
     ("page", Json.num 1),
     ("per_page", Json.num 10)])]

/-- The oracle for the single outbound HTTP GET: the status code the
server answers with and the parsed JSON body (`none` when the body is
not valid JSON, so that `response.json()` raises a decode error). -/
structure HttpResp where
  status : Nat
  body : Option Json

/-- One issued HTTP request, as recorded in the request trace: the URL,
the fixed identification headers, and the query-parameter mapping that
was sent. -/
structure FetchReq where
  url : String
  headers : List (String × String)
  params : Dict

/-- The request issued by `fetch_openalex_data` (src/openalex.py lines
70-77): URL joined from the base origin and the endpoint path, the two
fixed identification headers, and the query-parameter mapping. -/
def fetchRequest (endpoint : String) (params : Dict) : FetchReq :=
  ⟨OA_API_BASE ++ "/" ++ endpoint,
   [("User-Agent", USER_AGENT), ("Mailto", MAILTO_ADDRESS)], params⟩

/-- Embedding of the outcome of `fetch_openalex_data` (src/openalex.py
lines 59-79): `raise_for_status` raises on a non-2xx status, then the
body is parsed as JSON, raising a decode error when it is not valid
JSON. -/
def fetch_openalex_data (resp : HttpResp) : Except PyErr Json :=
  if 200 ≤ resp.status ∧ resp.status < 300 then
    match resp.body with
    | some j => .ok j
    | none => .error .jsonDecodeError
  else .error (.httpStatusError resp.status)

/-- Whether the pattern is an initial segment of the character list. -/
def startsWithChars : List Char → List Char → Bool
  | _, [] => true
  | [], _ :: _ => false
  | c :: cs, d :: ds => (c == d) && startsWithChars cs ds

/-- Whether the pattern occurs contiguously anywhere in the character
list (the empty pattern always occurs, as for Python substring tests). -/
def hasSubstrChars : List Char → List Char → Bool
  | [], pat => startsWithChars [] pat
  | c :: cs, pat => startsWithChars (c :: cs) pat || hasSubstrChars cs pat

/-- Python substring test `pat in s`. -/
def hasSubstr (s pat : String) : Bool :=
  hasSubstrChars s.data pat.data

/-- Python membership test `s in container` as used on the parsed body:
key membership for dicts, element equality for lists, substring test for
strings; TypeError on non-containers. -/
def pyContains (container : Json) (s : String) : Except PyErr Bool :=
  match container with
  | .obj fs => .ok (fs.any (fun p => p.1 == s))
  | .arr xs => .ok (xs.any (fun x => match x with | .str t => t == s | _ => false))
  | .str t => .ok (hasSubstr t s)
  | _ => .error .typeError

/-- Embedding of the post-fetch check of `openalex_search`
(src/openalex.py lines 107-113): `if not data or "results" not in data:
raise ValueError(...)`, short-circuiting, then return the data. -/
def resultsCheck (query : String) (fetched : Except PyErr Json) : Except PyErr Json :=
  match fetched with
  | .error e => .error e
  | .ok data =>
    if pyTruthy data = false then
      .error (.valueError ("No data found for query: " ++ query))
    else
      match pyContains data "results" with
      | .error e => .error e
      | .ok b =>
        if b = false then .error (.valueError ("No data found for query: " ++ query))
        else .ok data

/-- The observable result of one `openalex_search` call: the PARAMS
table after the call (the global is threaded explicitly), the caller's
params dict after the call (calls mutate it in place), the trace of
issued HTTP requests, and the returned value or raised exception. -/
structure SearchResult where
  ptable : Table
  callerParams : Option Dict
  requests : List FetchReq
  outcome : Except PyErr Json

/-- Embedding of `openalex_search` (src/openalex.py lines 81-113), with
the global PARAMS table passed in as `ptable` and the network modelled
by the oracle `resp`. Steps: reject an endpoint outside ENDPOINTS with
ValueError before any request; when `params` is None take
`ptable[endpoint]` (KeyError when absent — note the table aliasing: the
subsequent `params["search"] = query` mutates the table entry); insert
`search = query` into the params dict in place; fetch; apply the
results check. -/
def openalex_search (query : String) (endpoint : String) (params : Option Dict)
    (resp : HttpResp) (ptable : Table) : SearchResult :=
  match lookupStr ENDPOINTS endpoint with
  | none => ⟨ptable, params, [], .error (.valueError ("Invalid endpoint: " ++ endpoint))⟩
  | some path =>
    match params with
    | none =>
      match lookupStr ptable endpoint with
      | none => ⟨ptable, none, [], .error (.keyError endpoint)⟩
      | some d =>
        let d2 := setKey d "search" (Json.str query)
        ⟨setKey ptable endpoint d2, none, [fetchRequest path d2],
         resultsCheck query (fetch_openalex_data resp)⟩
    | some d0 =>
      let d2 := setKey d0 "search" (Json.str query)
      ⟨ptable, some d2, [fetchRequest path d2],
       resultsCheck query (fetch_openalex_data resp)⟩

/-- Modelled from the spec: the working parameter mapping the spec
describes for a call — "merging the Default Parameter Set (if present)
with a caller-supplied override mapping" (overwrite-by-key), "then
adding a `search` key holding the query string". This definition follows
the spec's words and is compared against the mapping the code actually
sends. -/
def specMergedParams (endpoint : String) (caller : Option Dict) (query : String) : Dict :=
  let base := (lookupStr PARAMS endpoint).getD []
  let merged :=
    match caller with
    | none => base
    | some ov => ov.foldl (fun acc p => setKey acc p.1 p.2) base
  setKey merged "search" (Json.str query)

/-- The PARAMS entry for "works", written out for use in concrete
instantiations. -/
def worksDefaults : Dict :=
  [("filter", Json.arr [Json.str "doi", Json.str "title", Json.str "abstract"]),
   ("sort", Json.arr [Json.str "relevance", Json.str "date"]),
   ("page", Json.num 1),
   ("per_page", Json.num 10)]

theorem lookupStr_setKey_self (xs : List (String × α)) (k : String) (v : α) :
    lookupStr (setKey xs k v) k = some v := by
  induction xs with
  | nil => simp [setKey, lookupStr]
  | cons p rest ih =>
    obtain ⟨k0, v0⟩ := p
    by_cases h : k0 == k
    · simp [setKey, lookupStr, h]
    · simp only [setKey, lookupStr, h, if_false, Bool.false_eq_true, if_neg]
      exact ih

theorem lookupStr_setKey_ne (xs : List (String × α)) (k k2 : String) (v : α)
    (hk : k2 ≠ k) : lookupStr (setKey xs k v) k2 = lookupStr xs k2 := by
  induction xs with
  | nil =>
    simp only [setKey, lookupStr]
    rw [if_neg]
    simp [beq_iff_eq]
    exact fun h => hk h.symm
  | cons p rest ih =>
    obtain ⟨k0, v0⟩ := p
    by_cases h : k0 == k
    · have hk0 : k0 = k := by simpa [beq_iff_eq] using h
      subst hk0
      simp only [setKey, beq_self_eq_true, if_true, lookupStr]
      rw [if_neg, if_neg] <;> simp [beq_iff_eq] <;> exact fun h2 => hk h2.symm
    · simp only [setKey, h, Bool.false_eq_true, if_neg, lookupStr]
      by_cases h2 : k0 == k2
      · simp [h2]
      · simp only [h2, Bool.false_eq_true, if_neg]
        exact ih

theorem lookupStr_none_any_false (xs : List (String × α)) (k : String)
    (h : lookupStr xs k = none) : xs.any (fun p => p.1 == k) = false := by
  induction xs with
  | nil => rfl
  | cons p rest ih =>
    obtain ⟨k0, v0⟩ := p
    by_cases hk : k0 == k
    · simp [lookupStr, hk] at h
    · simp only [lookupStr, hk, Bool.false_eq_true, if_neg] at h
      simp [List.any_cons, hk, ih h]

/-- C1: the claim states that a valid endpoint with no Default Parameter
Set entry (e.g. "venues") and params=None proceeds with an empty
parameter set and sends only the injected search key. On the code,
`PARAMS[endpoint]` raises KeyError for "venues" before any HTTP request
is issued: the call crashes instead of proceeding. -/
theorem C1_venues_no_defaults_keyError :
    (openalex_search "q" "venues" none
        ⟨200, some (Json.obj [("results", Json.arr [])])⟩ PARAMS).outcome
      = .error (.keyError "venues")
    ∧ (openalex_search "q" "venues" none
        ⟨200, some (Json.obj [("results", Json.arr [])])⟩ PARAMS).requests = [] :=
  ⟨rfl, rfl⟩

/-- C2 counterexample: the static PARAMS table is not identical before
and after a call — a params=None call for "works" mutates the aliased
table entry by inserting the search key, so the resulting table differs
from PARAMS. -/
theorem C2_params_table_mutated :
    (openalex_search "q" "works" none
        ⟨200, some (Json.obj [("results", Json.arr [])])⟩ PARAMS).ptable ≠ PARAMS := by
  intro h
  exact absurd
    (congrArg (fun t => (lookupStr t "works").map (fun d => (lookupStr d "search").isSome)) h)
    (by decide)

/-- C3: the claim states that `format_works_response` never raises and
that a missing `name` inside an author record degrades to placeholder
text. On the code, `author["name"]` raises KeyError when an author
record has no name: the input with results `[{"authors": [{}]}]` raises
instead of rendering. -/
theorem C3_missing_author_name_raises :
    format_works_response
        (Json.obj [("results",
          Json.arr [Json.obj [("authors", Json.arr [Json.obj []])]])])
      = .error (.keyError "name") := rfl

/-- C4 counterexample: with caller-supplied params for "works", the
mapping actually sent is not the spec's merge of the works defaults with
the overrides — the code ignores the defaults entirely, so the sent
mapping lacks the default "filter" key that the merge would contain. -/
theorem C4_no_merge_counterexample :
    (openalex_search "q" "works" (some [("page", Json.num 5)])
        ⟨200, some (Json.obj [("results", Json.arr [])])⟩ PARAMS).requests.map FetchReq.params
      ≠ [specMergedParams "works" (some [("page", Json.num 5)]) "q"] := by
  intro h
  exact absurd
    (congrArg (fun l => l.map (fun d => (lookupStr d "filter").isSome)) h)
    (by decide)

/-- C5 counterexample: a work record with no `authors` key does not
render its Authors line with the `N/A` placeholder — the record
`{"title": "A"}` renders successfully, and its block contains no
occurrence of "Authors: N/A" (the Authors line is the empty comma-join). -/
theorem C5_authors_no_placeholder :
    Except.map (fun s => hasSubstr s "Authors: N/A")
        (format_work (Json.obj [("title", Json.str "A")]))
      = .ok false := rfl

/-- C8: `format_works_response {results: [{}]}` returns exactly
"No data found.\nNumber of works found: 1" — the empty record renders as
the literal "No data found." in place of the field block, and the count
line follows. -/
theorem C8_single_empty_record :
    format_works_response (Json.obj [("results", Json.arr [Json.obj []])])
      = .ok "No data found.\nNumber of works found: 1" := rfl

/-- C9: `format_works_response {results: []}` returns exactly
"No works found." with no block formatting and no count line. -/
theorem C9_empty_results :
    format_works_response (Json.obj [("results", Json.arr [])])
      = .ok "No works found." := rfl

/-- C2 (amended): calls with params=None alias the PARAMS table entry
and mutate it in place — after such a call the table entry for the
endpoint is the old entry with the search key set to the query, so the
table is not identical before and after; calls with caller-supplied
params leave the table unchanged; and a second params=None call for the
same endpoint therefore observes a default set already holding the
previous search key, which its own insertion overwrites, so the mapping
it sends is the first call's mapping with search rebound to the new
query. -/
theorem C2_defaults_aliasing (t : Table) (q1 q2 e path : String) (d : Dict)
    (r1 r2 : HttpResp)
    (hE : lookupStr ENDPOINTS e = some path) (hD : lookupStr t e = some d) :
    (openalex_search q1 e none r1 t).ptable
        = setKey t e (setKey d "search" (Json.str q1))
    ∧ (∀ p, (openalex_search q1 e (some p) r1 t).ptable = t)
    ∧ (openalex_search q2 e none r2
          (openalex_search q1 e none r1 t).ptable).requests.map FetchReq.params
        = [setKey (setKey d "search" (Json.str q1)) "search" (Json.str q2)] := by
  have h1 : (openalex_search q1 e none r1 t).ptable
      = setKey t e (setKey d "search" (Json.str q1)) := by
    simp [openalex_search, hE, hD]
  refine ⟨h1, fun p => by simp [openalex_search, hE], ?_⟩
  rw [h1]
  simp [openalex_search, hE, lookupStr_setKey_self, fetchRequest]

/-- C2 witness: instantiation at the "works" endpoint with queries "a"
then "b". -/
theorem C2_defaults_aliasing_witness :
    lookupStr ENDPOINTS "works" = some "/works"
    ∧ lookupStr PARAMS "works" = some worksDefaults
    ∧ (openalex_search "a" "works" none ⟨200, some (Json.obj [])⟩ PARAMS).ptable
        = setKey PARAMS "works" (setKey worksDefaults "search" (Json.str "a"))
    ∧ (openalex_search "a" "works" (some []) ⟨200, some (Json.obj [])⟩ PARAMS).ptable = PARAMS
    ∧ (openalex_search "b" "works" none ⟨200, some (Json.obj [])⟩
          (openalex_search "a" "works" none ⟨200, some (Json.obj [])⟩ PARAMS).ptable).requests.map FetchReq.params
        = [setKey (setKey worksDefaults "search" (Json.str "a")) "search" (Json.str "b")] :=
  ⟨rfl, rfl,
   (C2_defaults_aliasing PARAMS "a" "b" "works" "/works" worksDefaults
      ⟨200, some (Json.obj [])⟩ ⟨200, some (Json.obj [])⟩ rfl rfl).1,
   (C2_defaults_aliasing PARAMS "a" "b" "works" "/works" worksDefaults
      ⟨200, some (Json.obj [])⟩ ⟨200, some (Json.obj [])⟩ rfl rfl).2.1 [],
   (C2_defaults_aliasing PARAMS "a" "b" "works" "/works" worksDefaults
      ⟨200, some (Json.obj [])⟩ ⟨200, some (Json.obj [])⟩ rfl rfl).2.2⟩

/-- C4 (amended): for a valid endpoint the defaults are never merged
with caller overrides — when params is supplied the sent mapping is
exactly the caller's mapping with search set to the query (overwriting
any caller-supplied search key), and only when params is None is the
Default Parameter Set entry used, again with search set last. -/
theorem C4_params_defaults_not_merged (query e path : String) (p d : Dict)
    (resp : HttpResp) (t : Table)
    (hE : lookupStr ENDPOINTS e = some path) (hD : lookupStr t e = some d) :
    (openalex_search query e (some p) resp t).requests.map FetchReq.params
        = [setKey p "search" (Json.str query)]
    ∧ (openalex_search query e none resp t).requests.map FetchReq.params
        = [setKey d "search" (Json.str query)]
    ∧ lookupStr (setKey p "search" (Json.str query)) "search" = some (Json.str query) :=
  ⟨by simp [openalex_search, hE, fetchRequest],
   by simp [openalex_search, hE, hD, fetchRequest],
   lookupStr_setKey_self p "search" (Json.str query)⟩

/-- C4 witness: instantiation at "works" with caller overrides
containing both a page and a stale search key. -/
theorem C4_params_defaults_not_merged_witness :
    lookupStr ENDPOINTS "works" = some "/works"
    ∧ lookupStr PARAMS "works" = some worksDefaults
    ∧ (openalex_search "q" "works" (some [("page", Json.num 5), ("search", Json.str "old")])
          ⟨200, some (Json.obj [])⟩ PARAMS).requests.map FetchReq.params
        = [[("page", Json.num 5), ("search", Json.str "q")]]
    ∧ (openalex_search "q" "works" none ⟨200, some (Json.obj [])⟩ PARAMS).requests.map FetchReq.params
        = [setKey worksDefaults "search" (Json.str "q")]
    ∧ lookupStr (setKey [("page", Json.num 5), ("search", Json.str "old")] "search" (Json.str "q")) "search"
        = some (Json.str "q") :=
  ⟨rfl, rfl,
   (C4_params_defaults_not_merged "q" "works" "/works"
      [("page", Json.num 5), ("search", Json.str "old")] worksDefaults
      ⟨200, some (Json.obj [])⟩ PARAMS rfl rfl).1,
   (C4_params_defaults_not_merged "q" "works" "/works"
      [("page", Json.num 5), ("search", Json.str "old")] worksDefaults
      ⟨200, some (Json.obj [])⟩ PARAMS rfl rfl).2.1,
   (C4_params_defaults_not_merged "q" "works" "/works"
      [("page", Json.num 5), ("search", Json.str "old")] worksDefaults
      ⟨200, some (Json.obj [])⟩ PARAMS rfl rfl).2.2⟩

/-- C5 (amended): for every truthy work record, each of title, doi,
journal and publication_date is rendered through
`data.get(field, "N/A")` — the literal N/A when the field is missing —
but a record with no authors key renders its Authors line as the empty
comma-join of the defaulted empty author list, with no N/A placeholder. -/
theorem C5_missing_fields_placeholder (fs : Dict)
    (hne : fs.isEmpty = false) (hA : lookupStr fs "authors" = none) :
    format_work (Json.obj fs)
      = .ok ("\n    Title: " ++ pyStr ((lookupStr fs "title").getD (Json.str "N/A"))
        ++ "\n    DOI: " ++ pyStr ((lookupStr fs "doi").getD (Json.str "N/A"))
        ++ "\n    Journal: " ++ pyStr ((lookupStr fs "journal").getD (Json.str "N/A"))
        ++ "\n    Authors: "
        ++ "\n    Publication Date: "
        ++ pyStr ((lookupStr fs "publication_date").getD (Json.str "N/A"))
        ++ "\n    ") := by
  simp [format_work, pyTruthy, hne, hA, pyIter, mapExcept, String.intercalate]

/-- C5 witness: a record with only a doi renders the three other scalar
fields as N/A and the Authors line as empty. -/
theorem C5_missing_fields_placeholder_witness :
    ([("doi", Json.str "d1")] : Dict).isEmpty = false
    ∧ lookupStr ([("doi", Json.str "d1")] : Dict) "authors" = none
    ∧ format_work (Json.obj [("doi", Json.str "d1")])
        = .ok "\n    Title: N/A\n    DOI: d1\n    Journal: N/A\n    Authors: \n    Publication Date: N/A\n    " :=
  ⟨rfl, rfl, C5_missing_fields_placeholder [("doi", Json.str "d1")] rfl rfl⟩

/-- C6: for every endpoint name outside ENDPOINTS, the call fails with
the ValueError "Invalid endpoint: ..." and issues no HTTP request, for
any query, params and network behavior. -/
theorem C6_invalid_endpoint_no_request (query e : String) (params : Option Dict)
    (resp : HttpResp) (t : Table) (h : lookupStr ENDPOINTS e = none) :
    (openalex_search query e params resp t).outcome
        = .error (.valueError ("Invalid endpoint: " ++ e))
    ∧ (openalex_search query e params resp t).requests = [] := by
  constructor <;> simp [openalex_search, h]

/-- C6 witness: instantiation at the endpoint name "papers". -/
theorem C6_invalid_endpoint_no_request_witness :
    lookupStr ENDPOINTS "papers" = none
    ∧ (openalex_search "q" "papers" none ⟨200, some (Json.obj [])⟩ PARAMS).outcome
        = .error (.valueError "Invalid endpoint: papers")
    ∧ (openalex_search "q" "papers" none ⟨200, some (Json.obj [])⟩ PARAMS).requests = [] :=
  ⟨rfl,
   (C6_invalid_endpoint_no_request "q" "papers" none ⟨200, some (Json.obj [])⟩ PARAMS rfl).1,
   (C6_invalid_endpoint_no_request "q" "papers" none ⟨200, some (Json.obj [])⟩ PARAMS rfl).2⟩

/-- C7: for every call that reaches JSON parsing (valid endpoint, 2xx
status, body parsing to `j`) where `j` is empty/falsy or is a mapping
with no results key, the call fails with the ValueError
"No data found for query: <query>" and returns no value — both when the
caller supplies params and when the defaults are taken from the table. -/
theorem C7_empty_results_value_error (query e path : String) (p d : Dict)
    (resp : HttpResp) (t : Table) (j : Json)
    (hE : lookupStr ENDPOINTS e = some path)
    (hD : lookupStr t e = some d)
    (hS : 200 ≤ resp.status ∧ resp.status < 300)
    (hB : resp.body = some j)
    (hJ : pyTruthy j = false ∨ ∃ fs, j = Json.obj fs ∧ lookupStr fs "results" = none) :
    (openalex_search query e (some p) resp t).outcome
        = .error (.valueError ("No data found for query: " ++ query))
    ∧ (openalex_search query e none resp t).outcome
        = .error (.valueError ("No data found for query: " ++ query)) := by
  have hfetch : fetch_openalex_data resp = .ok j := by
    rw [fetch_openalex_data, if_pos hS, hB]
  have hcheck : resultsCheck query (.ok j)
      = .error (.valueError ("No data found for query: " ++ query)) := by
    rcases hJ with hfalsy | ⟨fs, rfl, hres⟩
    · simp [resultsCheck, hfalsy]
    · by_cases ht : pyTruthy (Json.obj fs) = false
      · simp [resultsCheck, ht]
      · simp [resultsCheck, ht, pyContains, lookupStr_none_any_false fs "results" hres]
  constructor
  · simp [openalex_search, hE, hfetch, hcheck]
  · simp [openalex_search, hE, hD, hfetch, hcheck]

/-- C7 witness: a 200 response with body parsed as the empty mapping
fails with the empty-result ValueError naming the query. -/
theorem C7_empty_results_value_error_witness :
    lookupStr ENDPOINTS "works" = some "/works"
    ∧ lookupStr PARAMS "works" = some worksDefaults
    ∧ (200 ≤ 200 ∧ 200 < 300)
    ∧ (openalex_search "q" "works" (some []) ⟨200, some (Json.obj [])⟩ PARAMS).outcome
        = .error (.valueError "No data found for query: q")
    ∧ (openalex_search "q" "works" none ⟨200, some (Json.obj [])⟩ PARAMS).outcome
        = .error (.valueError "No data found for query: q") :=
  ⟨rfl, rfl, by decide,
   (C7_empty_results_value_error "q" "works" "/works" [] worksDefaults
      ⟨200, some (Json.obj [])⟩ PARAMS (Json.obj []) rfl rfl (by decide) rfl
      (Or.inr ⟨[], rfl, rfl⟩)).1,
   (C7_empty_results_value_error "q" "works" "/works" [] worksDefaults
      ⟨200, some (Json.obj [])⟩ PARAMS (Json.obj []) rfl rfl (by decide) rfl
      (Or.inr ⟨[], rfl, rfl⟩)).2⟩

/-- C10: for every caller-supplied params mapping and valid endpoint,
the call mutates the caller's mapping in place: afterwards (whatever the
HTTP status or body, including failing calls) the caller's mapping is
its old self with search bound to the query — search is present bound
to the query, and every other key is unchanged. -/
theorem C10_caller_params_mutation (query e path : String) (p : Dict)
    (resp : HttpResp) (t : Table) (k : String)
    (hE : lookupStr ENDPOINTS e = some path) (hk : k ≠ "search") :
    (openalex_search query e (some p) resp t).callerParams
        = some (setKey p "search" (Json.str query))
    ∧ lookupStr (setKey p "search" (Json.str query)) "search" = some (Json.str query)
    ∧ lookupStr (setKey p "search" (Json.str query)) k = lookupStr p k :=
  ⟨by simp [openalex_search, hE],
   lookupStr_setKey_self p "search" (Json.str query),
   lookupStr_setKey_ne p "search" k (Json.str query) hk⟩

/-- C10 witness: instantiation at "works" with a caller mapping holding
a page key, against a failing (404) response. -/
theorem C10_caller_params_mutation_witness :
    lookupStr ENDPOINTS "works" = some "/works"
    ∧ "page" ≠ "search"
    ∧ (openalex_search "q" "works" (some [("page", Json.num 5)])
          ⟨404, some (Json.obj [])⟩ PARAMS).callerParams
        = some [("page", Json.num 5), ("search", Json.str "q")]
    ∧ lookupStr [("page", Json.num 5), ("search", Json.str "q")] "search" = some (Json.str "q")
    ∧ lookupStr [("page", Json.num 5), ("search", Json.str "q")] "page"
        = lookupStr [("page", Json.num 5)] "page" :=
  ⟨rfl, by decide,
   (C10_caller_params_mutation "q" "works" "/works" [("page", Json.num 5)]
      ⟨404, some (Json.obj [])⟩ PARAMS "page" rfl (by decide)).1,
   (C10_caller_params_mutation "q" "works" "/works" [("page", Json.num 5)]
      ⟨404, some (Json.obj [])⟩ PARAMS "page" rfl (by decide)).2.1,
   (C10_caller_params_mutation "q" "works" "/works" [("page", Json.num 5)]
      ⟨404, some (Json.obj [])⟩ PARAMS "page" rfl (by decide)).2.2⟩
